import Mathlib

/-!
Verification of the process-watchdog program (`process_monitor.py`).

The program is embedded shallowly:

* configuration (`argparse` namespace) becomes the structure `Args`;
* Python truthiness of optional strings / floats becomes `truthyS` / the
  zero test inside `threshTrip`;
* wall-clock readings (`time.time()`) become explicit integer arguments,
  one per call site (the program only ever compares clock differences with
  the integer `cooldown`, so any fixed time unit works), and the mutable
  `last_action` variable becomes an `Option ℤ` threaded through the
  loop-body functions; sampled memory/cpu values and the float thresholds
  stay rational;
* the side effects of one loop iteration (subprocess invocations and
  webhook notifications) are reified as a list of timestamped `Action`s;
* external outcomes (did `systemctl` succeed, did the started command exit
  with status zero, did the process terminate within the wait timeout, did
  a library call raise) are oracle parameters, since they are decided by
  the operating system, not by this program.
-/

namespace ProcMon

/-- Configuration record mirroring the `argparse` namespace of
`process_monitor.py` (lines 130-140).  Optional CLI strings default to
`None`, modelled by `Option String`; the two thresholds are floats,
modelled by `Option ℚ` (`none` = absent). -/
structure Args where
  name : Option String
  pid : Option String
  max_mem_mb : Option ℚ
  max_cpu : Option ℚ
  interval : ℤ
  service : Option String
  start_cmd : Option String
  webhook : Option String
  cooldown : ℤ
deriving DecidableEq

/-- Python truthiness of an optional string: `None` and `""` are falsy. -/
def truthyS : Option String → Bool
  | none => false
  | some s => s != ""

/-- One disjunct of the trip test on line 106:
`args.max_mem_mb and mem_mb > args.max_mem_mb` — the threshold is first
tested for Python truthiness (`None` and `0.0` are falsy), then compared. -/
def threshTrip (t : Option ℚ) (x : ℚ) : Bool :=
  match t with
  | none => false
  | some v => if v = 0 then false else decide (x > v)

/-- The full trip condition of line 106:
`(args.max_mem_mb and mem_mb > args.max_mem_mb) or (args.max_cpu and cpu > args.max_cpu)`. -/
def trips (a : Args) (mem cpu : ℚ) : Bool :=
  threshTrip a.max_mem_mb mem || threshTrip a.max_cpu cpu

/-- The cooldown gate used on lines 93, 110, 114 and 118:
`not last_action or (time.time() - last_action) > args.cooldown`.
`now` is the value of the `time.time()` call at that site. -/
def gateOpen (last : Option ℤ) (now cooldown : ℤ) : Bool :=
  match last with
  | none => true
  | some t => decide (now - t > cooldown)

lemma gateOpen_some {L now cd : ℤ} : gateOpen (some L) now cd = true ↔ now - L > cd := by
  simp [gateOpen]

lemma threshTrip_iff (t : Option ℚ) (x : ℚ) :
    threshTrip t x = true ↔ ∃ v, t = some v ∧ v ≠ 0 ∧ x > v := by
  cases t with
  | none => simp [threshTrip]
  | some v =>
      by_cases hv : v = 0 <;> simp [threshTrip, hv]

/-- C1: for every sampled process, escalation is triggered if and only if
(max_mem_mb is configured and nonzero and measured memory in MB exceeds
max_mem_mb) or (max_cpu is configured and nonzero and measured cpu percent
exceeds max_cpu); a threshold that is 0 or unset never causes a trip. -/
theorem escalation_trigger_iff (a : Args) (mem cpu : ℚ) :
    trips a mem cpu = true ↔
      ((∃ v, a.max_mem_mb = some v ∧ v ≠ 0 ∧ mem > v) ∨
       (∃ v, a.max_cpu = some v ∧ v ≠ 0 ∧ cpu > v)) := by
  simp [trips, Bool.or_eq_true, threshTrip_iff]

/-- An observable side effect of one iteration of `main`'s loop: a
subprocess invocation or a webhook notification attempt. -/
inductive Action where
  | systemctlRestart (service : String)
  | runCommand (cmd : String)
  | killAndStart (pid : ℕ) (start_cmd : Option String)
  | notify (webhook : Option String)
deriving DecidableEq

/-- Dispatched recovery actions are the three strategies; a webhook
notification is not a recovery action. -/
def isDispatch : Action → Bool
  | Action.notify _ => false
  | _ => true

/-- Oracle for the success booleans returned by the three strategies when
invoked on lines 111, 115 and 119 (`ok` in the source). -/
structure StratResults where
  svcOk : Bool
  cmdOk : Bool
  killOk : Bool
deriving DecidableEq

/-- The `time.time()` readings made while handling one threshold trip:
at the three gate checks (lines 110, 114, 118) and at the final
`last_action = time.time()` assignment (line 123). -/
structure TripTimes where
  tSvc : ℤ
  tCmd : ℤ
  tKill : ℤ
  tSet : ℤ
deriving DecidableEq

/-- `if c then [x] else []`, used to record an action emitted under a
boolean guard. -/
def optList (c : Bool) (x : ℤ × Action) : List (ℤ × Action) :=
  if c then [x] else []

lemma mem_optList {c : Bool} {x y : ℤ × Action} :
    y ∈ optList c x ↔ c = true ∧ y = x := by
  cases c <;> simp [optList]

/-- Lines 90-98 of `main`: the branch taken when the resolver returned no
process.  If a start command is configured (Python truthiness) and the
cooldown gate is open, `restart_via_command` runs; only when it reports
success is a notification sent and `last_action` updated.  `cmdOk` is the
oracle for the command's success, `tGate` the `time.time()` of line 93 and
`tSet` that of line 98. -/
def handleNotFound (a : Args) (cmdOk : Bool) (tGate tSet : ℤ) (last : Option ℤ) :
    List (ℤ × Action) × Option ℤ :=
  if truthyS a.start_cmd && gateOpen last tGate a.cooldown then
    if cmdOk then
      ([(tGate, Action.runCommand (a.start_cmd.getD "")),
        (tSet, Action.notify a.webhook)], some tSet)
    else
      ([(tGate, Action.runCommand (a.start_cmd.getD ""))], last)
  else ([], last)

/-- Lines 109-123 of `main`: handling of one threshold trip for process
`pid`.  `action_taken` starts false; each strategy is guarded by its own
configuration test and an independent cooldown-gate check, and runs only
if no earlier strategy succeeded; the notification and the
`last_action = time.time()` assignment at the end are unconditional. -/
def handleTrip (a : Args) (pid : ℕ) (res : StratResults) (ts : TripTimes)
    (last : Option ℤ) : List (ℤ × Action) × Option ℤ :=
  let s1 := truthyS a.service && gateOpen last ts.tSvc a.cooldown
  let taken1 := s1 && res.svcOk
  let s2 := !taken1 && (truthyS a.start_cmd && gateOpen last ts.tCmd a.cooldown)
  let taken2 := taken1 || (s2 && res.cmdOk)
  let s3 := !taken2 && gateOpen last ts.tKill a.cooldown
  (optList s1 (ts.tSvc, Action.systemctlRestart (a.service.getD "")) ++
   optList s2 (ts.tCmd, Action.runCommand (a.start_cmd.getD "")) ++
   optList s3 (ts.tKill, Action.killAndStart pid a.start_cmd) ++
   [(ts.tSet, Action.notify a.webhook)],
   some ts.tSet)

/-- One state-relevant event handled by the loop body: either a tick that
resolved zero processes, or the examination of one resolved process with
its sampled memory (MB) and cpu (percent) readings.  A process whose
sample does not trip the thresholds, or that vanishes mid-sampling
(lines 124-125), changes nothing and emits nothing. -/
inductive Event where
  | notFound (cmdOk : Bool) (tGate tSet : ℤ)
  | trip (pid : ℕ) (mem cpu : ℚ) (res : StratResults) (ts : TripTimes)
deriving DecidableEq

/-- Effect of one event on the `last_action` state, with the emitted
timestamped actions.  A `trip` event runs the escalation block only when
the line-106 condition holds. -/
def stepEvent (a : Args) (e : Event) (last : Option ℤ) :
    List (ℤ × Action) × Option ℤ :=
  match e with
  | Event.notFound cmdOk tGate tSet => handleNotFound a cmdOk tGate tSet last
  | Event.trip pid mem cpu res ts =>
      if trips a mem cpu then handleTrip a pid res ts last else ([], last)

/-- Run of the loop over a sequence of events, threading `last_action`
and concatenating the emitted actions. -/
def runTrace (a : Args) (last : Option ℤ) : List Event → List (ℤ × Action) × Option ℤ
  | [] => ([], last)
  | e :: es =>
      ((stepEvent a e last).1 ++ (runTrace a (stepEvent a e last).2 es).1,
       (runTrace a (stepEvent a e last).2 es).2)

/-- Earliest `time.time()` reading of an event. -/
def Event.tmin : Event → ℤ
  | Event.notFound _ tGate _ => tGate
  | Event.trip _ _ _ _ ts => ts.tSvc

/-- Latest `time.time()` reading of an event. -/
def Event.tmax : Event → ℤ
  | Event.notFound _ _ tSet => tSet
  | Event.trip _ _ _ _ ts => ts.tSet

/-- The clock readings inside one event are nondecreasing in program
order (monotone wall clock). -/
def Event.wfOk : Event → Bool
  | Event.notFound _ tGate tSet => decide (tGate ≤ tSet)
  | Event.trip _ _ _ _ ts =>
      decide (ts.tSvc ≤ ts.tCmd) && decide (ts.tCmd ≤ ts.tKill) &&
      decide (ts.tKill ≤ ts.tSet)

/-- Chronological trace: every event's readings are internally ordered,
start no earlier than the bound `b`, and each event ends before the next
begins (monotone wall clock across the run). -/
def chron (b : ℤ) : List Event → Bool
  | [] => true
  | e :: es => (decide (b ≤ e.tmin) && e.wfOk) && chron e.tmax es

lemma tmin_le_tmax {e : Event} (hwf : e.wfOk = true) : e.tmin ≤ e.tmax := by
  cases e with
  | notFound cmdOk tGate tSet =>
      simp [Event.wfOk] at hwf
      simpa [Event.tmin, Event.tmax] using hwf
  | trip pid mem cpu res ts =>
      simp [Event.wfOk] at hwf
      simp only [Event.tmin, Event.tmax]
      linarith [hwf.1.1, hwf.1.2, hwf.2]

/-- Every dispatched (non-notify) action emitted while `last_action` is
set passed a cooldown-gate check at its own timestamp. -/
lemma stepEvent_dispatch_gate {a : Args} {e : Event} {L t : ℤ} {act : Action}
    (hmem : (t, act) ∈ (stepEvent a e (some L)).1) (hd : isDispatch act = true) :
    t - L > a.cooldown := by
  cases e with
  | notFound cmdOk tGate tSet =>
      simp only [stepEvent, handleNotFound] at hmem
      by_cases hg : truthyS a.start_cmd && gateOpen (some L) tGate a.cooldown
      · rw [if_pos hg] at hmem
        have hgate : gateOpen (some L) tGate a.cooldown = true :=
          (Bool.and_eq_true _ _ ▸ hg).2
        by_cases hc : cmdOk = true
        · rw [if_pos hc] at hmem
          rcases List.mem_pair.mp hmem with h | h
          · cases h
            exact gateOpen_some.mp hgate
          · cases h
            simp [isDispatch] at hd
        · rw [if_neg hc] at hmem
          rcases List.mem_singleton.mp hmem with h
          cases h
          exact gateOpen_some.mp hgate
      · rw [if_neg hg] at hmem
        simp at hmem
  | trip pid mem cpu res ts =>
      simp only [stepEvent] at hmem
      by_cases htr : trips a mem cpu
      · rw [if_pos htr] at hmem
        simp only [handleTrip, List.mem_append, mem_optList, List.mem_singleton] at hmem
        rcases hmem with ((h | h) | h) | h
        · obtain ⟨hs1, hx⟩ := h
          cases hx
          have : gateOpen (some L) ts.tSvc a.cooldown = true :=
            (Bool.and_eq_true _ _ ▸ hs1).2
          exact gateOpen_some.mp this
        · obtain ⟨hs2, hx⟩ := h
          cases hx
          have h2 : (truthyS a.start_cmd && gateOpen (some L) ts.tCmd a.cooldown) = true :=
            (Bool.and_eq_true _ _ ▸ hs2).2
          have : gateOpen (some L) ts.tCmd a.cooldown = true :=
            (Bool.and_eq_true _ _ ▸ h2).2
          exact gateOpen_some.mp this
        · obtain ⟨hs3, hx⟩ := h
          cases hx
          have : gateOpen (some L) ts.tKill a.cooldown = true :=
            (Bool.and_eq_true _ _ ▸ hs3).2
          exact gateOpen_some.mp this
        · cases h
          simp [isDispatch] at hd
      · rw [if_neg htr] at hmem
        simp at hmem

/-- `last_action` is either left alone by an event or set to the event's
final clock reading. -/
lemma stepEvent_last (a : Args) (e : Event) (last : Option ℤ) :
    (stepEvent a e last).2 = last ∨ (stepEvent a e last).2 = some e.tmax := by
  cases e with
  | notFound cmdOk tGate tSet =>
      simp only [stepEvent, handleNotFound, Event.tmax]
      split
      · cases cmdOk with
        | true => simp
        | false => simp
      · simp
  | trip pid mem cpu res ts =>
      simp only [stepEvent, handleTrip, Event.tmax]
      split <;> simp

/-- Every action an event emits carries a timestamp no later than the
event's final clock reading. -/
lemma stepEvent_time_le {a : Args} {e : Event} {last : Option ℤ} {t : ℤ} {act : Action}
    (hwf : e.wfOk = true) (hmem : (t, act) ∈ (stepEvent a e last).1) :
    t ≤ e.tmax := by
  cases e with
  | notFound cmdOk tGate tSet =>
      simp only [Event.wfOk, decide_eq_true_eq] at hwf
      simp only [stepEvent, handleNotFound, Event.tmax] at hmem ⊢
      split at hmem
      · by_cases hc : cmdOk = true
        · rw [if_pos hc] at hmem
          rcases List.mem_pair.mp hmem with h | h <;> cases h
          · exact hwf
          · exact le_refl _
        · rw [if_neg hc] at hmem
          rcases List.mem_singleton.mp hmem with h
          cases h
          exact hwf
      · simp at hmem
  | trip pid mem cpu res ts =>
      simp only [Event.wfOk, Bool.and_eq_true, decide_eq_true_eq] at hwf
      obtain ⟨⟨h12, h23⟩, h34⟩ := hwf
      simp only [stepEvent, Event.tmax] at hmem ⊢
      split at hmem
      · simp only [handleTrip, List.mem_append, mem_optList, List.mem_singleton] at hmem
        rcases hmem with ((h | h) | h) | h
        · cases h.2; linarith
        · cases h.2; linarith
        · cases h.2; linarith
        · cases h; exact le_refl _
      · simp at hmem

lemma chron_mono {b c : ℤ} {es : List Event} (hb : c ≤ b) (h : chron b es = true) :
    chron c es = true := by
  cases es with
  | nil => simp [chron]
  | cons e es =>
      simp only [chron, Bool.and_eq_true, decide_eq_true_eq] at h ⊢
      exact ⟨⟨le_trans hb h.1.1, h.1.2⟩, h.2⟩

/-- Core cooldown bound: in a chronological run starting with
`last_action = some L` where `L` is below every clock reading of the run,
every dispatched recovery action happens more than `cooldown` after `L`. -/
lemma runTrace_gap (a : Args) :
    ∀ (es : List Event) (L : ℤ), chron L es = true →
      ∀ (t : ℤ) (act : Action), (t, act) ∈ (runTrace a (some L) es).1 →
        isDispatch act = true → t - L > a.cooldown := by
  intro es
  induction es with
  | nil =>
      intro L _ t act hmem
      simp [runTrace] at hmem
  | cons e es ih =>
      intro L hch t act hmem hd
      simp only [chron, Bool.and_eq_true, decide_eq_true_eq] at hch
      obtain ⟨⟨hLe, hwf⟩, hch2⟩ := hch
      simp only [runTrace, List.mem_append] at hmem
      rcases hmem with hmem | hmem
      · exact stepEvent_dispatch_gate hmem hd
      · have hLmax : L ≤ e.tmax := le_trans hLe (tmin_le_tmax hwf)
        rcases stepEvent_last a e (some L) with hl | hl
        · rw [hl] at hmem
          exact ih L (chron_mono hLmax hch2) t act hmem hd
        · rw [hl] at hmem
          have h2 := ih e.tmax hch2 t act hmem hd
          linarith

/-- Example configuration: both a service name and a start command
configured, memory threshold 100 MB, cpu threshold 80 %, cooldown 300 s. -/
def aWd : Args :=
  { name := some "app", pid := none, max_mem_mb := some 100, max_cpu := some 80,
    interval := 15, service := some "svc", start_cmd := some "run",
    webhook := none, cooldown := 300 }

/-- Example configuration: only a start command configured (no service),
cooldown 300 s. -/
def aNf : Args :=
  { name := some "app", pid := none, max_mem_mb := some 100, max_cpu := some 80,
    interval := 15, service := none, start_cmd := some "run",
    webhook := none, cooldown := 300 }

/-- C3 counterexample: with only a start command configured and the target
never found, a start attempt that fails does not update `last_action`
(line 98 sits under `if ok:`), so the next tick dispatches another start
attempt 15 s later — far less than the 300 s cooldown — and that second
action is not the first action of the run.  The claim "t2 - t1 >=
cooldown_seconds; only the very first action of the run is exempt" is
therefore false on the code. -/
theorem cooldown_claim_counterexample :
    (runTrace aNf none [Event.notFound false 0 0, Event.notFound false 15 15]).1 =
      [(0, Action.runCommand "run"), (15, Action.runCommand "run")] ∧
    isDispatch (Action.runCommand "run") = true ∧
    chron 0 [Event.notFound false 0 0, Event.notFound false 15 15] = true ∧
    (15:ℤ) - 0 < aNf.cooldown := by
  decide

/-- C3 (amended): for two dispatched recovery actions at times t1 < t2,
t2 - t1 exceeds cooldown_seconds whenever the event containing the first
action updated `last_action_time`; a not-found start attempt that fails
leaves `last_action_time` unchanged and places no cooldown constraint on
later dispatches. -/
theorem dispatched_actions_cooldown_spacing (a : Args) (last0 : Option ℤ)
    (e1 : Event) (es2 : List Event) (t1 t2 : ℤ) (act1 act2 : Action)
    (hwf1 : e1.wfOk = true)
    (hupd : (stepEvent a e1 last0).2 ≠ last0)
    (hch : chron e1.tmax es2 = true)
    (h1 : (t1, act1) ∈ (stepEvent a e1 last0).1)
    (hd1 : isDispatch act1 = true)
    (h2 : (t2, act2) ∈ (runTrace a (stepEvent a e1 last0).2 es2).1)
    (hd2 : isDispatch act2 = true) :
    a.cooldown < t2 - t1 := by
  rcases stepEvent_last a e1 last0 with hl | hl
  · exact absurd hl hupd
  · have ht1 : t1 ≤ e1.tmax := stepEvent_time_le hwf1 h1
    rw [hl] at h2
    have h3 := runTrace_gap a es2 e1.tmax hch t2 act2 h2 hd2
    linarith

theorem dispatched_actions_cooldown_spacing_witness : (300:ℤ) < 400 - 0 :=
  dispatched_actions_cooldown_spacing aWd none
    (Event.trip 1 200 0 ⟨true, true, true⟩ ⟨0, 0, 0, 5⟩)
    [Event.trip 1 200 0 ⟨true, true, true⟩ ⟨400, 400, 400, 405⟩]
    0 400 (Action.systemctlRestart "svc") (Action.systemctlRestart "svc")
    (by decide) (by decide) (by decide) (by decide) (by decide) (by decide) (by decide)

/-- C2 counterexample: service and start command configured, cooldown
300 s, last action 10 s ago, a trip at time 110 with every strategy oracle
set to succeed: the gate is closed, yet the handler changes the state —
`last_action` is reset from 100 to 110 (line 123 is unconditional).  The
claim's "the watchdog state (in particular last_action_time) is left
unchanged" is false on the code. -/
theorem gate_closed_state_unchanged_counterexample :
    gateOpen (some 100) 110 aWd.cooldown = false ∧
    (stepEvent aWd (Event.trip 1 200 0 ⟨true, true, true⟩ ⟨110, 110, 110, 110⟩)
        (some 100)).2 ≠ some 100 ∧
    (stepEvent aWd (Event.trip 1 200 0 ⟨true, true, true⟩ ⟨110, 110, 110, 110⟩)
        (some 100)).2 = some 110 := by
  decide

/-- C2 (amended): if a threshold trip occurs while the cooldown gate is
closed at each gate check, no recovery strategy is invoked — but the
webhook notification is still attempted and `last_action_time` is reset to
the current time (lines 122-123 run unconditionally). -/
theorem trip_gate_closed_no_strategy_but_state_reset (a : Args) (pid : ℕ)
    (mem cpu : ℚ) (res : StratResults) (ts : TripTimes) (L : ℤ)
    (htrip : trips a mem cpu = true)
    (h1 : gateOpen (some L) ts.tSvc a.cooldown = false)
    (h2 : gateOpen (some L) ts.tCmd a.cooldown = false)
    (h3 : gateOpen (some L) ts.tKill a.cooldown = false) :
    (stepEvent a (Event.trip pid mem cpu res ts) (some L)).1 =
      [(ts.tSet, Action.notify a.webhook)] ∧
    (stepEvent a (Event.trip pid mem cpu res ts) (some L)).2 = some ts.tSet := by
  constructor <;> simp [stepEvent, htrip, handleTrip, h1, h2, h3, optList]

theorem trip_gate_closed_no_strategy_but_state_reset_witness :
    (stepEvent aWd (Event.trip 1 200 0 ⟨true, true, true⟩ ⟨110, 110, 110, 110⟩)
        (some 100)).1 = [((110:ℤ), Action.notify none)] :=
  (trip_gate_closed_no_strategy_but_state_reset aWd 1 200 0 ⟨true, true, true⟩
    ⟨110, 110, 110, 110⟩ 100 (by decide) (by decide) (by decide) (by decide)).1

/-- C10: on every threshold trip handled by the loop, a webhook
notification is attempted and `last_action` is set to the current time
unconditionally — whatever the gate state and the strategy outcomes
(`res` and `last` are arbitrary here). -/
theorem trip_always_notifies_and_stamps (a : Args) (pid : ℕ) (mem cpu : ℚ)
    (res : StratResults) (ts : TripTimes) (last : Option ℤ)
    (htrip : trips a mem cpu = true) :
    (ts.tSet, Action.notify a.webhook) ∈
      (stepEvent a (Event.trip pid mem cpu res ts) last).1 ∧
    (stepEvent a (Event.trip pid mem cpu res ts) last).2 = some ts.tSet := by
  refine ⟨?_, by simp [stepEvent, htrip, handleTrip]⟩
  simp only [stepEvent, if_pos htrip, handleTrip]
  exact List.mem_append_right _ (List.mem_singleton_self _)

theorem trip_always_notifies_and_stamps_witness :
    ((110:ℤ), Action.notify none) ∈
      (stepEvent aWd (Event.trip 1 200 0 ⟨false, false, false⟩ ⟨110, 110, 110, 110⟩)
        (some 100)).1 ∧
    (stepEvent aWd (Event.trip 1 200 0 ⟨false, false, false⟩ ⟨110, 110, 110, 110⟩)
        (some 100)).2 = some 110 :=
  trip_always_notifies_and_stamps aWd 1 200 0 ⟨false, false, false⟩
    ⟨110, 110, 110, 110⟩ (some 100) (by decide)

/-- C4: strategies run in the fixed order service-restart, start-command,
terminate-and-restart, stopping at the first success: when the service
restart is configured, gated open, and succeeds, the emitted actions are
exactly the service restart followed by the notification — no start
command and no terminate fallback, even though both may be configured. -/
theorem service_restart_success_stops_escalation (a : Args) (pid : ℕ)
    (mem cpu : ℚ) (res : StratResults) (ts : TripTimes) (last : Option ℤ)
    (htrip : trips a mem cpu = true)
    (hsvc : truthyS a.service = true)
    (hgate : gateOpen last ts.tSvc a.cooldown = true)
    (hok : res.svcOk = true) :
    (stepEvent a (Event.trip pid mem cpu res ts) last).1 =
      [(ts.tSvc, Action.systemctlRestart (a.service.getD "")),
       (ts.tSet, Action.notify a.webhook)] := by
  simp [stepEvent, htrip, handleTrip, hsvc, hgate, hok, optList]

theorem service_restart_success_stops_escalation_witness :
    (stepEvent aWd (Event.trip 1 200 0 ⟨true, true, true⟩ ⟨0, 0, 0, 5⟩) none).1 =
      [((0:ℤ), Action.systemctlRestart "svc"), ((5:ℤ), Action.notify none)] :=
  service_restart_success_stops_escalation aWd 1 200 0 ⟨true, true, true⟩
    ⟨0, 0, 0, 5⟩ none (by decide) (by decide) (by decide) (by decide)

/-- C5 counterexample: start command configured, target not found,
cooldown gate open (no prior action), but the start command fails: the
attempt is made, yet no notification is sent and the cooldown timestamp is
NOT updated (`last_action` stays `none`) — refuting "the cooldown
timestamp (last_action_time) is updated, and one notification attempt is
made — with the timestamp updated after every successful or attempted
action". -/
theorem notfound_timestamp_claim_counterexample :
    truthyS aNf.start_cmd = true ∧
    gateOpen none 0 aNf.cooldown = true ∧
    handleNotFound aNf false 0 5 none = ([(0, Action.runCommand "run")], none) := by
  decide

/-- C5 (amended): when the resolver returns zero processes (never an
error), a configured start command with an open cooldown gate yields
exactly one start-command execution; the cooldown timestamp is updated and
one notification attempted only if that execution succeeds — on failure
`last_action` is left unchanged and no notification is attempted. -/
theorem notfound_single_start_attempt (a : Args) (cmdOk : Bool)
    (tGate tSet : ℤ) (last : Option ℤ)
    (hcmd : truthyS a.start_cmd = true)
    (hgate : gateOpen last tGate a.cooldown = true) :
    handleNotFound a cmdOk tGate tSet last =
      (if cmdOk then
        ([(tGate, Action.runCommand (a.start_cmd.getD "")),
          (tSet, Action.notify a.webhook)], some tSet)
       else ([(tGate, Action.runCommand (a.start_cmd.getD ""))], last)) := by
  simp [handleNotFound, hcmd, hgate]

theorem notfound_single_start_attempt_witness :
    handleNotFound aNf true 400 405 (some 50) =
      ([((400:ℤ), Action.runCommand "run"), ((405:ℤ), Action.notify none)], some 405) :=
  notfound_single_start_attempt aNf true 400 405 (some 50) (by decide) (by decide)

/-- Observable process-control effects of `kill_and_start` (lines 59-74):
the graceful `proc.terminate()`, the bounded `proc.wait(timeout=10)`, the
forceful `proc.kill()`, and the detached `subprocess.Popen(start_cmd, shell=True)`. -/
inductive KAEvent where
  | terminate (pid : ℕ)
  | wait (pid : ℕ) (timeout : ℕ)
  | kill (pid : ℕ)
  | popen (cmd : String)
deriving DecidableEq

/-- Is this event the forceful kill of process `pid`? -/
def isKillEv (pid : ℕ) : KAEvent → Bool
  | KAEvent.kill q => q == pid
  | _ => false

/-- Is this event a detached start-command launch? -/
def isPopenEv : KAEvent → Bool
  | KAEvent.popen _ => true
  | _ => false

/-- Lines 59-74: `kill_and_start(proc, start_cmd)`.  `outcome` is the
oracle for the surrounding `try` block: `Except.ok exitsInTime` means no
library call raised, with `exitsInTime` telling whether
`proc.wait(timeout=10)` returned before the 10-second timeout
(`psutil.TimeoutExpired` is caught on line 65 and answered by
`proc.kill()`); `Except.error e` means some call raised `e`, which the
line-72 handler turns into `(False, str(e))` — the effects emitted before
the raise are not modelled, only the returned result.  A configured
(Python-truthy) start command is launched detached at the end. -/
def kill_and_start (pid : ℕ) (start_cmd : Option String)
    (outcome : Except String Bool) : List KAEvent × Bool × String :=
  match outcome with
  | Except.error e => ([], false, e)
  | Except.ok exitsInTime =>
      ([KAEvent.terminate pid, KAEvent.wait pid 10] ++
       (if exitsInTime then [] else [KAEvent.kill pid]) ++
       (if truthyS start_cmd then [KAEvent.popen (start_cmd.getD "")] else []),
       true, "kill+start выполнены")

/-- C6: on the non-raising path, terminate-and-restart first sends the
graceful termination signal and then waits with the fixed 10-second
timeout; the forceful kill is issued exactly once if and only if the
timeout elapsed; a configured start command is launched detached as the
final step, and with no start command configured nothing is launched
(terminate-only degeneration); the strategy reports success. -/
theorem kill_and_start_sequence (pid : ℕ) (sc : Option String) (exitsInTime : Bool) :
    ((kill_and_start pid sc (Except.ok exitsInTime)).1.countP (isKillEv pid) =
      if exitsInTime then 0 else 1) ∧
    ((kill_and_start pid sc (Except.ok exitsInTime)).1.take 2 =
      [KAEvent.terminate pid, KAEvent.wait pid 10]) ∧
    ((kill_and_start pid sc (Except.ok exitsInTime)).1.countP isPopenEv =
      if truthyS sc then 1 else 0) ∧
    ((kill_and_start pid sc (Except.ok exitsInTime)).1.getLast? =
      if truthyS sc then some (KAEvent.popen (sc.getD ""))
      else if exitsInTime then some (KAEvent.wait pid 10)
      else some (KAEvent.kill pid)) ∧
    (kill_and_start pid sc (Except.ok exitsInTime)).2 = (true, "kill+start выполнены") := by
  cases exitsInTime <;> cases hsc : truthyS sc <;>
    simp [kill_and_start, hsc, isKillEv, isPopenEv, List.countP_cons, List.countP_nil]

/-- Lines 45-50: `restart_via_systemctl(service_name)`.  `r` is the oracle
for `subprocess.run(["systemctl", "restart", service_name], check=True, ...)`:
`ok` = exit status zero, `error e` = the call raised `e` (a non-zero exit
status raises `CalledProcessError`).  The bare `except` returns the
captured detail instead of letting the raise escape. -/
def restart_via_systemctl (service : String) (r : Except String Unit) : Bool × String :=
  match r with
  | Except.ok _ => (true, "systemctl restart выполнен")
  | Except.error e => (false, "systemctl restart failed: " ++ e)

/-- Lines 52-57: `restart_via_command(cmd)`, same oracle convention for
`subprocess.run(cmd, shell=True, check=True)`. -/
def restart_via_command (cmd : String) (r : Except String Unit) : Bool × String :=
  match r with
  | Except.ok _ => (true, "Команда рестарта `" ++ cmd ++ "` выполнена")
  | Except.error e => (false, "Команда рестарта `" ++ cmd ++ "` не удалась: " ++ e)

/-- C7: no recovery strategy lets a raise escape its boundary: each is a
total function of its exception oracle, and on any underlying failure it
returns `false` together with the captured error detail (so the caller
degrades to trying the next strategy); with exit status zero each reports
success. -/
theorem strategies_capture_failures (service cmd : String) (pid : ℕ)
    (sc : Option String) (e : String) :
    restart_via_systemctl service (Except.error e) =
      (false, "systemctl restart failed: " ++ e) ∧
    restart_via_command cmd (Except.error e) =
      (false, "Команда рестарта `" ++ cmd ++ "` не удалась: " ++ e) ∧
    (kill_and_start pid sc (Except.error e)).2 = (false, e) ∧
    (restart_via_systemctl service (Except.ok ())).1 = true ∧
    (restart_via_command cmd (Except.ok ())).1 = true :=
  ⟨rfl, rfl, rfl, rfl, rfl⟩

/-- The per-process info dict prefetched by
`psutil.process_iter(['pid', 'name', 'cmdline'])` (line 26). -/
structure PInfo where
  pid : ℕ
  name : String
  cmdline : List String
deriving DecidableEq

/-- `needle` is a prefix of `hay` (on character lists). -/
def listPrefixOf : List Char → List Char → Bool
  | [], _ => true
  | _ :: _, [] => false
  | a :: as, b :: bs => a == b && listPrefixOf as bs

/-- `needle` occurs contiguously in the character list. -/
def listInfixOf (needle : List Char) : List Char → Bool
  | [] => needle.isEmpty
  | c :: cs => listPrefixOf needle (c :: cs) || listInfixOf needle cs

/-- Python's substring test `needle in hay` on strings. -/
def strContains (hay needle : String) : Bool := listInfixOf needle.data hay.data

/-- The match test on line 28:
`p.info['name'] == name or (p.info['cmdline'] and name in ' '.join(p.info['cmdline']))`.
An empty `cmdline` list is Python-falsy, short-circuiting the membership
test. -/
def matchesTarget (name : String) (info : PInfo) : Bool :=
  info.name == name ||
    (!info.cmdline.isEmpty &&
      strContains (String.intercalate " " info.cmdline) name)

/-- Effect of the loop body of lines 27-31 on one table entry: a `none`
entry stands for a process whose info read raised `NoSuchProcess` or
`AccessDenied` — the `except ... continue` skips it. -/
def matchEntry (name : String) : Option PInfo → Option PInfo
  | none => none
  | some info => if matchesTarget name info then some info else none

/-- Lines 24-32: enumerate the process table and collect the matches,
skipping vanished/inaccessible entries without aborting the scan. -/
def find_processes_by_name (name : String) (tbl : List (Option PInfo)) : List PInfo :=
  tbl.filterMap (matchEntry name)

lemma matchEntry_none (name : String) : matchEntry name none = none := rfl

lemma matchEntry_some (name : String) (i : PInfo) :
    matchEntry name (some i) = if matchesTarget name i then some i else none := rfl

lemma listInfixOf_nil {needle : List Char} (h : listInfixOf needle [] = true) :
    needle = [] := by
  cases needle with
  | nil => rfl
  | cons c cs => simp [listInfixOf, List.isEmpty] at h

lemma matchesTarget_iff {name : String} (hname : name ≠ "") (info : PInfo) :
    matchesTarget name info = true ↔
      (info.name = name ∨
       strContains (String.intercalate " " info.cmdline) name = true) := by
  unfold matchesTarget
  simp only [Bool.or_eq_true, Bool.and_eq_true, beq_iff_eq, Bool.not_eq_true',
    List.isEmpty_eq_false]
  constructor
  · rintro (h | ⟨_, hsub⟩)
    · exact Or.inl h
    · exact Or.inr hsub
  · rintro (h | hsub)
    · exact Or.inl h
    · refine Or.inr ⟨?_, hsub⟩
      intro hnil
      rw [hnil] at hsub
      have hdat : name.data = [] := listInfixOf_nil hsub
      exact hname (String.ext hdat)

/-- C8: in name mode (where the target string is nonempty: an empty
`--name` is Python-falsy, so the name branch of the loop is only reached
with a nonempty target), the resolver returns exactly the live table
entries whose reported name equals the target or whose space-joined
command line contains the target as a substring — either match suffices —
and entries that vanished or were inaccessible mid-enumeration are
silently skipped without aborting the scan. -/
theorem find_by_name_characterisation (name : String) (hname : name ≠ "")
    (tbl : List (Option PInfo)) (info : PInfo) :
    (info ∈ find_processes_by_name name tbl ↔
      some info ∈ tbl ∧
        (info.name = name ∨
         strContains (String.intercalate " " info.cmdline) name = true)) ∧
    find_processes_by_name name (none :: tbl) = find_processes_by_name name tbl := by
  constructor
  · unfold find_processes_by_name
    rw [List.mem_filterMap]
    constructor
    · rintro ⟨entry, hent, hf⟩
      cases entry with
      | none => rw [matchEntry_none] at hf; cases hf
      | some i =>
          rw [matchEntry_some] at hf
          by_cases hm : matchesTarget name i = true
          · rw [if_pos hm] at hf
            obtain rfl := Option.some.inj hf
            exact ⟨hent, (matchesTarget_iff hname _).mp hm⟩
          · rw [if_neg hm] at hf
            cases hf
    · rintro ⟨hmem, hcond⟩
      refine ⟨some info, hmem, ?_⟩
      rw [matchEntry_some, if_pos ((matchesTarget_iff hname info).mpr hcond)]
  · unfold find_processes_by_name
    exact List.filterMap_cons_none (matchEntry_none name)

theorem find_by_name_characterisation_witness :
    ((⟨2, "worker", ["python", "my_app", "--serve"]⟩ : PInfo) ∈
      find_processes_by_name "my_app"
        [none, some ⟨1, "my_app", []⟩, some ⟨2, "worker", ["python", "my_app", "--serve"]⟩,
         some ⟨3, "other", ["sleep"]⟩] ↔
      some (⟨2, "worker", ["python", "my_app", "--serve"]⟩ : PInfo) ∈
        [none, some ⟨1, "my_app", []⟩, some ⟨2, "worker", ["python", "my_app", "--serve"]⟩,
         some ⟨3, "other", ["sleep"]⟩] ∧
        ((⟨2, "worker", ["python", "my_app", "--serve"]⟩ : PInfo).name = "my_app" ∨
         strContains
           (String.intercalate " " (⟨2, "worker", ["python", "my_app", "--serve"]⟩ : PInfo).cmdline)
           "my_app" = true)) ∧
    find_processes_by_name "my_app"
        (none :: [some ⟨1, "my_app", []⟩, some ⟨2, "worker", ["python", "my_app", "--serve"]⟩]) =
      find_processes_by_name "my_app"
        [some ⟨1, "my_app", []⟩, some ⟨2, "worker", ["python", "my_app", "--serve"]⟩] :=
  ⟨(find_by_name_characterisation "my_app" (by decide)
      [none, some ⟨1, "my_app", []⟩, some ⟨2, "worker", ["python", "my_app", "--serve"]⟩,
       some ⟨3, "other", ["sleep"]⟩]
      ⟨2, "worker", ["python", "my_app", "--serve"]⟩).1,
   (find_by_name_characterisation "my_app" (by decide)
      [some ⟨1, "my_app", []⟩, some ⟨2, "worker", ["python", "my_app", "--serve"]⟩]
      ⟨2, "worker", ["python", "my_app", "--serve"]⟩).2⟩

/-- Lines 141-142 as written:
`if not args.name and not args.pid: parser.error("Must specify --name or --pid")` —
the configuration is rejected exactly when both selectors are Python-falsy.
(In the source this check sits, mis-indented, inside the `while` loop body
of `main` under `if __name__ == "__main__"`, so it never actually runs.) -/
def selectorOk (a : Args) : Bool := truthyS a.name || truthyS a.pid

/-- Configuration with no selector at all (running the script with no
arguments: every argparse default). -/
def argsNoSelector : Args :=
  { name := none, pid := none, max_mem_mb := some 1024, max_cpu := some 80,
    interval := 15, service := none, start_cmd := none,
    webhook := none, cooldown := 300 }

/-- Configuration with both selectors supplied. -/
def argsBothSelectors : Args :=
  { name := some "app", pid := some "42", max_mem_mb := some 1024, max_cpu := some 80,
    interval := 15, service := none, start_cmd := none,
    webhook := none, cooldown := 300 }

/-- C9: the startup check as written on lines 141-142 would reject the
no-selector configuration (and would accept a configuration with both
selectors, i.e. it enforces "at least one", not "exactly one") — but see
the claim record: in the source this block is nested inside `main`'s loop
body and is never executed, so no error is ever reported. -/
theorem selector_check_rejects_no_selector :
    selectorOk argsNoSelector = false ∧ selectorOk argsBothSelectors = true := by
  decide

end ProcMon
